import Mathlib

/-!
Shallow embedding of the retrieval-and-answering pipeline of the
tds_virtual_ta repository (src/ai_assistant_simple.py, src/ai_assistant.py,
src/vector_store.py, src/api.py), together with verification of the
specified properties.

Python strings are modelled as Lean `String`; Python string primitives
(lower, split, substring membership, count, slicing, join) are modelled by
executable helpers below operating on the underlying character lists.
The corpus read (a database query that can fail) is modelled as an
`Except String (List ScrapedContent)` value.  The external generative
capability (an OpenAI chat call that may be unconfigured, succeed, or fail
with an error message) is modelled by the `GenOutcome` oracle.  Embedding
vectors are modelled over `ℚ`; the composite embed-and-normalize capability
is a parameter of type `String → List ℚ`.
-/

/-- Models Python str.lower: lowercase every character (ASCII). -/
def pyLower (s : String) : String := ⟨s.data.map Char.toLower⟩

/-- Characters Python str.split treats as whitespace. -/
def pyIsSpace (c : Char) : Bool :=
  c == ' ' || c == '\t' || c == '\n' || c == '\r' || c == '\x0b' || c == '\x0c'

/-- Helper for `pySplit`: accumulates the current (reversed) word. -/
def wordsAux : List Char → List Char → List String
  | cur, [] => if cur.isEmpty then [] else [⟨cur.reverse⟩]
  | cur, c :: rest =>
    if pyIsSpace c then
      if cur.isEmpty then wordsAux [] rest else ⟨cur.reverse⟩ :: wordsAux [] rest
    else
      wordsAux (c :: cur) rest

/-- Models Python str.split() with no argument: split on whitespace runs,
producing no empty words. -/
def pySplit (s : String) : List String := wordsAux [] s.data

/-- Boolean test that the first list is a leading segment of the second. -/
def leadsWith : List Char → List Char → Bool
  | [], _ => true
  | _ :: _, [] => false
  | a :: ns, b :: hs => a == b && leadsWith ns hs

/-- Boolean test that `needle` occurs as a contiguous run inside the second
list. -/
def isSubstr (needle : List Char) : List Char → Bool
  | [] => needle.isEmpty
  | c :: rest => leadsWith needle (c :: rest) || isSubstr needle rest

/-- Models the Python membership test `needle in hay` on strings. -/
def pyContains (hay needle : String) : Bool := isSubstr needle.data hay.data

/-- Fuel-indexed helper for `pyCount`; fuel bounds the scan length so the
recursion is structural. -/
def countOccAux (needle : List Char) : Nat → List Char → Nat
  | 0, _ => 0
  | _ + 1, [] => 0
  | fuel + 1, c :: rest =>
    if !needle.isEmpty && leadsWith needle (c :: rest) then
      1 + countOccAux needle fuel (rest.drop (needle.length - 1))
    else
      countOccAux needle fuel rest

/-- Models Python hay.count(needle) for nonempty needles: the number of
non-overlapping occurrences, scanning left to right. -/
def pyCount (hay needle : String) : Nat := countOccAux needle.data hay.data.length hay.data

/-- Models Python "sep".join(parts). -/
def joinWith (sep : String) : List String → String
  | [] => ""
  | [x] => x
  | x :: y :: rest => x ++ sep ++ joinWith sep (y :: rest)

/-- Models Python truthiness of the optional base64 image argument: None and
the empty string are falsy. -/
def pyTruthy : Option String → Bool
  | none => false
  | some s => !s.isEmpty

/-- Models Python list.sort(key=key, reverse=True): a stable sort placing
larger keys first, equal keys keeping their original relative order. -/
def sortDescBy {α β : Type} [LinearOrder β] (key : α → β) (l : List α) : List α :=
  l.insertionSort (fun a b => key a ≥ key b)

/-- A scraped corpus record (models.ScrapedContent, the fields the
pipeline reads). -/
structure ScrapedContent where
  id : Nat
  url : String
  title : String
  content : String
  content_type : String
deriving DecidableEq

/-- A candidate source link, as returned in the answer payload. -/
structure Link where
  url : String
  text : String
deriving DecidableEq

/-- A scored keyword-search result (the dict built in simple_search). -/
structure SearchHit where
  score : Nat
  id : Nat
  url : String
  title : String
  text : String
  content_type : String
deriving DecidableEq

/-- The answer payload returned by the pipeline. -/
structure AnswerResult where
  answer : String
  links : List Link
deriving DecidableEq

/-- Outcome of the external generative call: no client configured, a
successful response (whose message content may be missing or empty), or an
exception carrying the error message str(e). -/
inductive GenOutcome where
  | noClient : GenOutcome
  | success : Option String → GenOutcome
  | failure : String → GenOutcome
deriving DecidableEq

/-- Models the Python expression `response.choices[0].message.content or
"I couldn\x27t generate a response."`. -/
def contentOrDefault : Option String → String
  | none => "I couldn\x27t generate a response."
  | some s => if s.isEmpty then "I couldn\x27t generate a response." else s

/-- The corpus actually readable: empty on a failed read. -/
def corpusOf : Except String (List ScrapedContent) → List ScrapedContent
  | .error _ => []
  | .ok cs => cs

namespace AiAssistantSimple

/-- The keyword score computed for one document inside simple_search
(src/ai_assistant_simple.py lines 36-65): a chain of fixed phrase bonuses
followed by per-word occurrence counts over the set of question words. -/
def simpleScore (question : String) (c : ScrapedContent) : Nat :=
  let ql := pyLower question
  let text := pyLower (c.title ++ " " ++ c.content)
  let score : Nat := 0
  let score := if pyContains ql "gpt-3.5-turbo" && pyContains text "gpt-3.5-turbo" then score + 20 else score
  let score := if pyContains ql "gpt-4o-mini" && pyContains text "gpt-4o-mini" then score + 15 else score
  let score := if pyContains ql "ga4" && pyContains text "ga4" then score + 20 else score
  let score := if pyContains ql "dashboard" && pyContains text "dashboard" then score + 15 else score
  let score := if pyContains ql "bonus" && pyContains text "bonus" then score + 15 else score
  let score := if pyContains ql "docker" && pyContains text "docker" then score + 20 else score
  let score := if pyContains ql "podman" && pyContains text "podman" then score + 20 else score
  let score := if pyContains ql "sep 2025" && pyContains text "sep 2025" then score + 20 else score
  let score := if pyContains ql "exam" && pyContains text "exam" then score + 15 else score
  score + ((pySplit ql).dedup.map (fun w => if w.length > 2 then pyCount text w else 0)).sum

/-- The result record simple_search appends for a positively scored
document. -/
def mkHit (c : ScrapedContent) (s : Nat) : SearchHit :=
  { score := s, id := c.id, url := c.url, title := c.title, text := c.content,
    content_type := c.content_type }

/-- simple_search (src/ai_assistant_simple.py lines 20-84): keyword scoring
over the corpus, keeping positive scores, stable-sorted descending, top_k
returned; any corpus read failure yields the empty list. -/
def simple_search (contents : Except String (List ScrapedContent)) (question : String)
    (top_k : Nat) : List SearchHit :=
  match contents with
  | .error _ => []
  | .ok cs =>
    if cs.isEmpty then []
    else
      let scored := cs.filterMap (fun c =>
        let s := simpleScore question c
        if s > 0 then some (mkHit c s) else none)
      (sortDescBy (fun h => h.score) scored).take top_k

/-- The fixed message returned by the fallback when no search hit exists. -/
def nothingFoundAnswer : String :=
  "I couldn\x27t find specific information about your question in the course materials. Please try rephrasing your question or check the course resources directly."

/-- The fixed disclaimer appended by the fallback when an image was
supplied. -/
def imageNote : String :=
  "Note: I can see you\x27ve included an image, but I need AI functionality to analyze it. Please describe what\x27s in the image so I can help better."

/-- Snippet truncation in generate_fallback_answer line 107: 200 characters
plus an ellipsis when the text is longer than 200 characters, unchanged
otherwise. -/
def truncSnippet (t : String) : String :=
  if t.length > 200 then (⟨t.data.take 200⟩ : String) ++ "..." else t

/-- The three answer_parts lines contributed by the i-th search result. -/
def excerptLines (i : Nat) (h : SearchHit) : List String :=
  [toString i ++ ". From \x27" ++ h.title ++ "\x27:", "   " ++ truncSnippet h.text, ""]

/-- generate_fallback_answer (src/ai_assistant_simple.py lines 87-130):
deterministic answer built from the top 3 keyword hits, a fixed message if
there are none, and an image disclaimer when an image was supplied. -/
def generate_fallback_answer (contents : Except String (List ScrapedContent))
    (question : String) (image_base64 : Option String) : AnswerResult :=
  let search_results := simple_search contents question 3
  if search_results.isEmpty then
    { answer := nothingFoundAnswer, links := [] }
  else
    let top := search_results.take 3
    let answer_parts := "Based on the course materials I found:\n" ::
      (top.enum.map (fun p => excerptLines (p.1 + 1) p.2)).flatten
    let relevant_links := top.map (fun r => ({ url := r.url, text := r.title } : Link))
    let answer_parts := answer_parts ++ (if pyTruthy image_base64 then [imageNote] else [])
    { answer := joinWith "\n" answer_parts, links := relevant_links }

/-- The per-link relevance score of rank_and_filter_links
(src/ai_assistant_simple.py lines 249-264): one point per question word
longer than 3 characters occurring in the lowercased title, plus two points
when the raw URL occurs in the raw answer or the lowercased title occurs in
the lowercased answer. -/
def rankScore (question answer : String) (link : Link) : Nat :=
  let question_lower := pyLower question
  let answer_lower := pyLower answer
  let title_lower := pyLower link.text
  let score := (pySplit question_lower).foldl
    (fun s w => if decide (w.length > 3) && pyContains title_lower w then s + 1 else s) 0
  if pyContains answer link.url || pyContains answer_lower title_lower then score + 2 else score

/-- rank_and_filter_links (src/ai_assistant_simple.py lines 238-268): score
each link, stable-sort descending, keep only positive scores. -/
def rank_and_filter_links (links : List Link) (question answer : String) : List Link :=
  if links.isEmpty then []
  else
    let scored := links.map (fun l => (l, rankScore question answer l))
    ((sortDescBy (fun p => p.2) scored).filter (fun p => decide (p.2 > 0))).map Prod.fst

/-- The quota/capacity classifier on the error message
(src/ai_assistant_simple.py line 230). -/
def isQuotaError (msg : String) : Bool :=
  pyContains (pyLower msg) "quota" || pyContains (pyLower msg) "insufficient"

/-- The descriptive error answer text for non-quota generative failures
(src/ai_assistant_simple.py line 233). -/
def errorAnswerText (msg : String) : String :=
  "Sorry, I encountered an error while processing your question: " ++ msg

/-- The context entry built for a positively scored hit
(src/ai_assistant_simple.py line 150). -/
def simpleContextEntry (r : SearchHit) : String :=
  "Title: " ++ r.title ++ "\nURL: " ++ r.url ++ "\nContent: " ++ (⟨r.text.data.take 500⟩ : String) ++ "..."

/-- The link candidates collected from positively scored keyword hits
(src/ai_assistant_simple.py lines 148-154). -/
def simpleRelevantLinks (hits : List SearchHit) : List Link :=
  hits.filterMap (fun r => if r.score > 0 then some ({ url := r.url, text := r.title } : Link) else none)

/-- The context parts collected from positively scored keyword hits
(src/ai_assistant_simple.py lines 148-154). -/
def simpleContextParts (hits : List SearchHit) : List String :=
  hits.filterMap (fun r => if r.score > 0 then some (simpleContextEntry r) else none)

/-- answer_question (src/ai_assistant_simple.py lines 133-235): fallback
when no client is configured; otherwise keyword retrieval, a generative
call, link ranking capped at 3 on success; on failure, fallback for
quota-class errors and a descriptive error answer with no links
otherwise. -/
def answer_question (gen : GenOutcome) (contents : Except String (List ScrapedContent))
    (question : String) (image_base64 : Option String) : AnswerResult :=
  match gen with
  | .noClient => generate_fallback_answer contents question image_base64
  | .success content =>
    let search_results := simple_search contents question 5
    let relevant_links := simpleRelevantLinks search_results
    let answer := contentOrDefault content
    let final_links := rank_and_filter_links relevant_links question answer
    { answer := answer, links := final_links.take 3 }
  | .failure msg =>
    if isQuotaError msg then generate_fallback_answer contents question image_base64
    else { answer := errorAnswerText msg, links := [] }

end AiAssistantSimple

/-- A document payload stored next to the vector index
(src/vector_store.py lines 66-73). -/
structure VDoc where
  id : Nat
  url : String
  title : String
  content : String
  content_type : String
  text : String
deriving DecidableEq, Inhabited

/-- Inner product of two vectors. -/
def innerProd (u v : List ℚ) : ℚ := (List.zipWith (fun a b => a * b) u v).sum

/-- Model of faiss IndexFlatIP search on the stored rows: rank all rows by
inner product with the query vector (descending, ties by row order), keep
the top k, pad with the no-match index -1 when fewer than k rows exist. -/
def faissTopK (rows : List (List ℚ)) (qv : List ℚ) (k : Nat) : List (ℚ × Int) :=
  let scored := rows.enum.map (fun p => (innerProd qv p.2, (p.1 : Int)))
  (sortDescBy (fun p => p.1) scored).take k ++
    List.replicate (k - rows.length) ((0 : ℚ), (-1 : Int))

/-- The vector store state: an optional loaded index (its stored embedding
rows) and the parallel document payload list (src/vector_store.py). -/
structure VectorStore where
  index : Option (List (List ℚ))
  documents : List VDoc

namespace VectorStore

/-- VectorStore.search (src/vector_store.py lines 94-114): empty result
when no index is loaded or the corpus is empty; otherwise embed the query,
retrieve the top min(top_k, corpus size) rows by inner product and pair
each valid returned index with its document and similarity, filtering the
no-match index -1.  The composite embed-and-normalize capability is the
`embedNorm` parameter. -/
def search (embedNorm : String → List ℚ) (vs : VectorStore) (query : String)
    (top_k : Nat) : List (VDoc × ℚ) :=
  match vs.index with
  | none => []
  | some rows =>
    if vs.documents.isEmpty then []
    else
      let qv := embedNorm query
      (faissTopK rows qv (min top_k vs.documents.length)).filterMap
        (fun p => if p.2 ≠ -1 then (vs.documents.get? p.2.toNat).map (fun d => (d, p.1)) else none)

end VectorStore

namespace AiAssistant

/-- The context entry built for a vector hit above the relevance threshold
(src/ai_assistant.py line 40). -/
def vecContextEntry (d : VDoc) : String :=
  "Title: " ++ d.title ++ "\nURL: " ++ d.url ++ "\nContent: " ++ (⟨d.content.data.take 500⟩ : String) ++ "..."

/-- The context parts collected from vector hits (src/ai_assistant.py lines
38-44): a hit is included exactly when its similarity exceeds 0.3. -/
def vecContextParts (results : List (VDoc × ℚ)) : List String :=
  results.filterMap (fun p => if p.2 > (0.3 : ℚ) then some (vecContextEntry p.1) else none)

/-- The link candidates collected from vector hits (src/ai_assistant.py
lines 38-44): a hit is included exactly when its similarity exceeds 0.3. -/
def vecRelevantLinks (results : List (VDoc × ℚ)) : List Link :=
  results.filterMap (fun p => if p.2 > (0.3 : ℚ) then some ({ url := p.1.url, text := p.1.title } : Link) else none)

end AiAssistant

/-- The answering entry point reached from the API route: api.py line 6
imports answer_question from ai_assistant_simple, so handle_question
(src/api.py lines 20-90) always invokes the keyword-based pipeline.  The
vector engine state present in the repository (vector_store.py) is carried
here as parameters to make that non-dependence expressible. -/
def handle_question_core (embedNorm : String → List ℚ) (vs : VectorStore)
    (gen : GenOutcome) (contents : Except String (List ScrapedContent))
    (question : String) (image_base64 : Option String) : AnswerResult :=
  AiAssistantSimple.answer_question gen contents question image_base64

/-! ### Specification-side definitions

These definitions follow the wording of the specification (sections 4.1,
4.5), to be compared with the code-derived definitions above. -/

/-- The fixed lexicon of high-value phrases and their bonus weights, as
described in spec section 4.1. -/
def keywordLexicon : List (String × Nat) :=
  [("gpt-3.5-turbo", 20), ("gpt-4o-mini", 15), ("ga4", 20), ("dashboard", 15),
   ("bonus", 15), ("docker", 20), ("podman", 20), ("sep 2025", 20), ("exam", 15)]

/-- Keyword score as worded by the spec: the sum of the bonus weights of the
lexicon phrases present in both the lowercase question and the lowercase
document text, plus, for every question word longer than 2 characters, the
number of occurrences of that word in the document text. -/
def specKeywordScore (question : String) (c : ScrapedContent) : Nat :=
  let ql := pyLower question
  let text := pyLower (c.title ++ " " ++ c.content)
  (keywordLexicon.map (fun pw => if pyContains ql pw.1 && pyContains text pw.1 then pw.2 else 0)).sum +
    ((pySplit ql).dedup.map (fun w => if w.length > 2 then pyCount text w else 0)).sum

/-- The scored, positively filtered hit list in corpus order, per the
spec wording of section 4.1. -/
def specScoredResults (cs : List ScrapedContent) (question : String) : List SearchHit :=
  cs.filterMap (fun c =>
    let s := specKeywordScore question c
    if s > 0 then some (AiAssistantSimple.mkHit c s) else none)

/-- Keyword search as worded by the spec: exclude zero scores, stable sort
descending by score (ties in corpus order), return the top top_k. -/
def specKeywordSearch (cs : List ScrapedContent) (question : String) (top_k : Nat) : List SearchHit :=
  (sortDescBy (fun h => h.score) (specScoredResults cs question)).take top_k

/-- Link score as worded by spec section 4.5: one point per question word of
length greater than 3 occurring as a substring of the lowercased title, plus
2 points if the URL or the title appears in the answer text. -/
def specRankScore (question answer : String) (l : Link) : Nat :=
  ((pySplit (pyLower question)).filter
      (fun w => decide (w.length > 3) && pyContains (pyLower l.text) w)).length +
    (if pyContains answer l.url || pyContains (pyLower answer) (pyLower l.text) then 2 else 0)

/-- Link ranking as worded by spec section 4.5: sort descending by score
(stable), drop every link whose score is not positive. -/
def specLinkRanker (links : List Link) (question answer : String) : List Link :=
  ((sortDescBy (fun p => p.2) (links.map (fun l => (l, specRankScore question answer l)))).filter
      (fun p => decide (p.2 > 0))).map Prod.fst

/-! ### General lemmas -/

theorem ite_add_shift (c : Prop) [Decidable c] (s n : Nat) :
    (if c then s + n else s) = s + (if c then n else 0) := by
  split <;> simp

theorem filterMap_ite {α β : Type} (p : α → Prop) [DecidablePred p] (f : α → β) (l : List α) :
    l.filterMap (fun a => if p a then some (f a) else none) =
      (l.filter (fun a => decide (p a))).map f := by
  induction l with
  | nil => rfl
  | cons x xs ih =>
    by_cases h : p x <;> simp [List.filterMap_cons, List.filter_cons, h, ih]

theorem filterMap_eq_map_of_forall {α β : Type} (f : α → Option β) (g : α → β) (l : List α)
    (h : ∀ a ∈ l, f a = some (g a)) : l.filterMap f = l.map g := by
  induction l with
  | nil => rfl
  | cons x xs ih =>
    rw [List.filterMap_cons, h x (List.mem_cons_self x xs), List.map_cons,
      ih (fun a ha => h a (List.mem_cons_of_mem x ha))]

theorem sortDescBy_perm {α β : Type} [LinearOrder β] (key : α → β) (l : List α) :
    (sortDescBy key l).Perm l :=
  List.perm_insertionSort _ l

theorem mem_sortDescBy {α β : Type} [LinearOrder β] {key : α → β} {l : List α} {a : α} :
    a ∈ sortDescBy key l ↔ a ∈ l :=
  (sortDescBy_perm key l).mem_iff

theorem sortDescBy_sorted {α β : Type} [LinearOrder β] (key : α → β) (l : List α) :
    List.Sorted (fun a b => key a ≥ key b) (sortDescBy key l) := by
  haveI : IsTotal α (fun a b => key a ≥ key b) := ⟨fun a b => le_total (key b) (key a)⟩
  haveI : IsTrans α (fun a b => key a ≥ key b) := ⟨fun _ _ _ hab hbc => le_trans hbc hab⟩
  exact List.sorted_insertionSort _ l

theorem filter_keyEq_orderedInsert {α β : Type} [LinearOrder β] (key : α → β) (v : β)
    (x : α) (l : List α) :
    (List.orderedInsert (fun a b => key a ≥ key b) x l).filter (fun a => decide (key a = v)) =
      if key x = v then x :: l.filter (fun a => decide (key a = v))
      else l.filter (fun a => decide (key a = v)) := by
  induction l with
  | nil =>
    by_cases h : key x = v <;> simp [List.orderedInsert, List.filter, h]
  | cons y ys ih =>
    simp only [List.orderedInsert]
    by_cases hxy : key x ≥ key y
    · rw [if_pos hxy, List.filter_cons, List.filter_cons]
      by_cases hx : key x = v <;> by_cases hyv : key y = v <;> simp [hx, hyv]
    · rw [if_neg hxy, List.filter_cons, ih]
      have hyx : key y > key x := lt_of_not_ge hxy
      by_cases hx : key x = v
      · have hyv : ¬ (key y = v) := by
          intro h
          rw [← hx] at h
          exact absurd h (ne_of_gt hyx)
        simp [hx, hyv]
      · by_cases hyv : key y = v <;> simp [hx, hyv]

theorem filter_keyEq_sortDescBy {α β : Type} [LinearOrder β] (key : α → β) (v : β) (l : List α) :
    (sortDescBy key l).filter (fun a => decide (key a = v)) =
      l.filter (fun a => decide (key a = v)) := by
  induction l with
  | nil => rfl
  | cons x xs ih =>
    show ((List.orderedInsert _ x (List.insertionSort _ xs)).filter _) = _
    rw [filter_keyEq_orderedInsert]
    by_cases h : key x = v <;> simp [List.filter_cons, h] <;> exact ih

theorem map_key_orderedInsert {α β : Type} [LinearOrder β] (key : α → β) (x : α) (l : List α) :
    (List.orderedInsert (fun a b => key a ≥ key b) x l).map key =
      List.orderedInsert (fun a b => a ≥ b) (key x) (l.map key) := by
  induction l with
  | nil => rfl
  | cons y ys ih =>
    by_cases hxy : key x ≥ key y <;> simp [List.orderedInsert, hxy, ih]

theorem map_key_sortDescBy {α β : Type} [LinearOrder β] (key : α → β) (l : List α) :
    (sortDescBy key l).map key = sortDescBy id (l.map key) := by
  induction l with
  | nil => rfl
  | cons x xs ih =>
    show (List.orderedInsert _ x (List.insertionSort _ xs)).map key = _
    rw [map_key_orderedInsert]
    show List.orderedInsert (fun a b => a ≥ b) (key x) ((sortDescBy key xs).map key) = _
    rw [ih]
    show _ = List.orderedInsert (fun a b => id a ≥ id b) (id (key x)) (List.insertionSort _ (xs.map key))
    simp only [id_eq]
    rfl

theorem foldl_count (p : String → Bool) (l : List String) (n : Nat) :
    l.foldl (fun s w => if p w then s + 1 else s) n = n + (l.filter p).length := by
  induction l generalizing n with
  | nil => simp
  | cons x xs ih =>
    by_cases h : p x <;> simp [List.filter_cons, h, ih] <;> omega

theorem joinWith_append_singleton (sep x a : String) (l : List String) :
    joinWith sep ((a :: l) ++ [x]) = joinWith sep (a :: l) ++ sep ++ x := by
  induction l generalizing a with
  | nil => rfl
  | cons b bs ih =>
    show a ++ sep ++ joinWith sep ((b :: bs) ++ [x]) = (a ++ sep ++ joinWith sep (b :: bs)) ++ sep ++ x
    rw [ih b]
    simp [String.append_assoc]

theorem simpleScore_eq_spec (q : String) (c : ScrapedContent) :
    AiAssistantSimple.simpleScore q c = specKeywordScore q c := by
  unfold AiAssistantSimple.simpleScore specKeywordScore keywordLexicon
  simp only [List.map_cons, List.map_nil, List.sum_cons, List.sum_nil, ite_add_shift]
  omega

theorem specScoredResults_eq (cs : List ScrapedContent) (q : String) :
    cs.filterMap (fun c =>
        let s := AiAssistantSimple.simpleScore q c
        if s > 0 then some (AiAssistantSimple.mkHit c s) else none) =
      specScoredResults cs q := by
  unfold specScoredResults
  simp only [simpleScore_eq_spec]

theorem simple_search_eq_spec (cs : List ScrapedContent) (q : String) (k : Nat) :
    AiAssistantSimple.simple_search (Except.ok cs) q k = specKeywordSearch cs q k := by
  unfold AiAssistantSimple.simple_search specKeywordSearch
  by_cases hcs : cs.isEmpty
  · have : cs = [] := List.isEmpty_iff.mp hcs
    subst this
    simp [specScoredResults, sortDescBy, List.insertionSort]
  · simp only [hcs, Bool.false_eq_true, if_false, specScoredResults_eq]

theorem mem_simple_search {contents : Except String (List ScrapedContent)} {q : String}
    {k : Nat} {h : SearchHit} (hm : h ∈ AiAssistantSimple.simple_search contents q k) :
    ∃ c ∈ corpusOf contents,
      h = AiAssistantSimple.mkHit c (AiAssistantSimple.simpleScore q c) ∧
        0 < AiAssistantSimple.simpleScore q c := by
  match contents with
  | .error e => simp [AiAssistantSimple.simple_search] at hm
  | .ok cs =>
    simp only [AiAssistantSimple.simple_search] at hm
    by_cases hcs : cs.isEmpty
    · simp [hcs] at hm
    · simp only [hcs, Bool.false_eq_true, if_false] at hm
      have h1 := (List.take_sublist k _).subset hm
      have h2 := mem_sortDescBy.mp h1
      rw [List.mem_filterMap] at h2
      obtain ⟨c, hc, hsome⟩ := h2
      by_cases hs : AiAssistantSimple.simpleScore q c > 0
      · simp only [hs, if_true] at hsome
        exact ⟨c, hc, (Option.some_injective _ hsome).symm, hs⟩
      · simp [hs] at hsome

theorem mem_rank_and_filter {links : List Link} {q a : String} {l : Link}
    (hm : l ∈ AiAssistantSimple.rank_and_filter_links links q a) :
    l ∈ links ∧ 0 < AiAssistantSimple.rankScore q a l := by
  rw [AiAssistantSimple.rank_and_filter_links] at hm
  by_cases he : links.isEmpty
  · simp [he] at hm
  · simp only [he, Bool.false_eq_true, if_false] at hm
    rw [List.mem_map] at hm
    obtain ⟨p, hp, hpl⟩ := hm
    rw [List.mem_filter] at hp
    obtain ⟨hps, hppos⟩ := hp
    have hpm := mem_sortDescBy.mp hps
    rw [List.mem_map] at hpm
    obtain ⟨l0, hl0, hpe⟩ := hpm
    subst hpe
    have hl : l0 = l := hpl
    subst hl
    exact ⟨hl0, by simpa using hppos⟩

theorem rankScore_eq_spec (q a : String) (l : Link) :
    AiAssistantSimple.rankScore q a l = specRankScore q a l := by
  unfold AiAssistantSimple.rankScore specRankScore
  simp only [foldl_count]
  simp only [Nat.zero_add, ite_add_shift]

theorem rank_and_filter_eq_spec (links : List Link) (q a : String) :
    AiAssistantSimple.rank_and_filter_links links q a = specLinkRanker links q a := by
  unfold AiAssistantSimple.rank_and_filter_links specLinkRanker
  by_cases he : links.isEmpty
  · have : links = [] := List.isEmpty_iff.mp he
    subst this
    simp [sortDescBy, List.insertionSort]
  · simp only [he, Bool.false_eq_true, if_false, rankScore_eq_spec]

theorem mem_simpleRelevantLinks {hits : List SearchHit} {l : Link}
    (hm : l ∈ AiAssistantSimple.simpleRelevantLinks hits) :
    ∃ r ∈ hits, l = { url := r.url, text := r.title } := by
  unfold AiAssistantSimple.simpleRelevantLinks at hm
  rw [List.mem_filterMap] at hm
  obtain ⟨r, hr, hsome⟩ := hm
  by_cases hs : r.score > 0
  · simp only [hs, if_true] at hsome
    exact ⟨r, hr, (Option.some_injective _ hsome).symm⟩
  · simp [hs] at hsome

/-! ### Claim C9 -/

/-- Claim C9: any internal failure during keyword retrieval (including an
unreachable corpus) yields an empty hit list instead of an exception, and
for questions over an empty corpus the Keyword Search Engine returns an
empty hit list; downstream, the fallback on an unreachable corpus still
produces the fixed nothing-found answer.  (In this embedding the functions
are total, so the absence of exceptions is by construction; the equations
state the degraded results.) -/
theorem claim_C9_retrieval_best_effort (e q : String) (k : Nat) (img : Option String) :
    AiAssistantSimple.simple_search (Except.error e) q k = []
    ∧ AiAssistantSimple.simple_search (Except.ok []) q k = []
    ∧ AiAssistantSimple.generate_fallback_answer (Except.error e) q img =
        { answer := AiAssistantSimple.nothingFoundAnswer, links := [] } :=
  ⟨rfl, rfl, rfl⟩

/-! ### Claim C2 -/

/-- Claim C2: the Answer Composer takes the fallback path exactly when no
generation capability is configured or the generative call fails with a
quota/capacity-class error (the substring classifier `isQuotaError`); every
other generative failure is surfaced as a descriptive error answer with
empty links, still a well-formed answer object; a successful generation
returns the generated text with ranked links. -/
theorem claim_C2_fallback_classification (contents : Except String (List ScrapedContent))
    (q : String) (img : Option String) (msg : String) (content : Option String) :
    (AiAssistantSimple.answer_question GenOutcome.noClient contents q img =
        AiAssistantSimple.generate_fallback_answer contents q img)
    ∧ (AiAssistantSimple.isQuotaError msg = true →
        AiAssistantSimple.answer_question (GenOutcome.failure msg) contents q img =
          AiAssistantSimple.generate_fallback_answer contents q img)
    ∧ (AiAssistantSimple.isQuotaError msg = false →
        AiAssistantSimple.answer_question (GenOutcome.failure msg) contents q img =
          { answer := AiAssistantSimple.errorAnswerText msg, links := [] })
    ∧ (AiAssistantSimple.answer_question (GenOutcome.success content) contents q img =
        { answer := contentOrDefault content,
          links := (AiAssistantSimple.rank_and_filter_links
              (AiAssistantSimple.simpleRelevantLinks
                (AiAssistantSimple.simple_search contents q 5)) q
              (contentOrDefault content)).take 3 }) := by
  refine ⟨rfl, fun h => ?_, fun h => ?_, rfl⟩
  · simp [AiAssistantSimple.answer_question, h]
  · simp [AiAssistantSimple.answer_question, h]

/-- Claim C2 witness: a quota-class failure message routes to the fallback
and a non-quota failure message yields the descriptive error answer. -/
theorem claim_C2_witness :
    (AiAssistantSimple.answer_question (GenOutcome.failure "You exceeded your current quota")
        (Except.ok []) "q" none =
      AiAssistantSimple.generate_fallback_answer (Except.ok []) "q" none)
    ∧ (AiAssistantSimple.answer_question (GenOutcome.failure "connection reset")
        (Except.ok []) "q" none =
      { answer := AiAssistantSimple.errorAnswerText "connection reset", links := [] }) :=
  ⟨(claim_C2_fallback_classification (Except.ok []) "q" none "You exceeded your current quota"
      none).2.1 (by decide),
   (claim_C2_fallback_classification (Except.ok []) "q" none "connection reset"
      none).2.2.1 (by decide)⟩

/-! ### Claim C3 -/

/-- Claim C3: the Keyword Search Engine computes exactly the spec scoring
(lexicon bonuses of 15-20 points for phrases in both lowercased question
and document text, plus occurrence counts of question words longer than 2
characters), excludes zero scores, stable-sorts descending by score (the
filter identity over every score value expresses that equal scores keep
corpus order), and returns the top top_k. -/
theorem claim_C3_keyword_engine (cs : List ScrapedContent) (q : String) (k : Nat) (v : Nat) :
    AiAssistantSimple.simple_search (Except.ok cs) q k = specKeywordSearch cs q k
    ∧ (AiAssistantSimple.simple_search (Except.ok cs) q k).length ≤ k
    ∧ List.Sorted (fun h₁ h₂ : SearchHit => h₁.score ≥ h₂.score)
        (AiAssistantSimple.simple_search (Except.ok cs) q k)
    ∧ (∀ h ∈ AiAssistantSimple.simple_search (Except.ok cs) q k, 0 < h.score)
    ∧ (sortDescBy (fun h => h.score) (specScoredResults cs q)).filter
          (fun h => decide (h.score = v)) =
        (specScoredResults cs q).filter (fun h => decide (h.score = v)) := by
  refine ⟨simple_search_eq_spec cs q k, ?_, ?_, ?_, filter_keyEq_sortDescBy _ v _⟩
  · rw [simple_search_eq_spec]
    unfold specKeywordSearch
    rw [List.length_take]
    exact min_le_left _ _
  · rw [simple_search_eq_spec]
    unfold specKeywordSearch
    exact List.Pairwise.sublist (List.take_sublist k _) (sortDescBy_sorted _ _)
  · intro h hm
    obtain ⟨c, _, he, hpos⟩ := mem_simple_search hm
    rw [he]
    exact hpos

/-- A small corpus record used for concrete checks. -/
def demoDoc3 : ScrapedContent :=
  { id := 1, url := "http://d", title := "Docker exam", content := "docker docker",
    content_type := "course" }

/-- Claim C3 witness: a concrete positively scored document is returned and
its score is positive. -/
theorem claim_C3_witness :
    AiAssistantSimple.mkHit demoDoc3 (AiAssistantSimple.simpleScore "docker" demoDoc3) ∈
        AiAssistantSimple.simple_search (Except.ok [demoDoc3]) "docker" 5
    ∧ 0 < (AiAssistantSimple.mkHit demoDoc3 (AiAssistantSimple.simpleScore "docker" demoDoc3)).score :=
  ⟨by decide,
   (claim_C3_keyword_engine [demoDoc3] "docker" 5 0).2.2.2.1 _ (by decide)⟩

/-! ### Claim C5 -/

/-- Claim C5: a vector hit enters the context bundle exactly when its
similarity strictly exceeds 0.3 (a similarity of exactly 0.3 is excluded,
0.31 included), and a keyword hit exactly when its score strictly exceeds
0. -/
theorem claim_C5_relevance_threshold (results : List (VDoc × ℚ)) (hits : List SearchHit)
    (d : VDoc) :
    AiAssistant.vecRelevantLinks results =
        (results.filter (fun p => decide (p.2 > (0.3 : ℚ)))).map
          (fun p => ({ url := p.1.url, text := p.1.title } : Link))
    ∧ AiAssistant.vecContextParts results =
        (results.filter (fun p => decide (p.2 > (0.3 : ℚ)))).map
          (fun p => AiAssistant.vecContextEntry p.1)
    ∧ AiAssistantSimple.simpleRelevantLinks hits =
        (hits.filter (fun h => decide (h.score > 0))).map
          (fun h => ({ url := h.url, text := h.title } : Link))
    ∧ AiAssistant.vecRelevantLinks [(d, (0.3 : ℚ))] = []
    ∧ AiAssistant.vecRelevantLinks [(d, (0.31 : ℚ))] = [{ url := d.url, text := d.title }] := by
  refine ⟨?_, ?_, ?_, ?_, ?_⟩
  · exact filterMap_ite (fun p : VDoc × ℚ => p.2 > (0.3 : ℚ))
      (fun p => ({ url := p.1.url, text := p.1.title } : Link)) results
  · exact filterMap_ite (fun p : VDoc × ℚ => p.2 > (0.3 : ℚ))
      (fun p => AiAssistant.vecContextEntry p.1) results
  · exact filterMap_ite (fun h : SearchHit => h.score > 0)
      (fun h => ({ url := h.url, text := h.title } : Link)) hits
  · simp [AiAssistant.vecRelevantLinks, List.filterMap]
  · norm_num [AiAssistant.vecRelevantLinks, List.filterMap]

/-! ### Claim C6 -/

/-- The example links, question, and answer of spec section 8. -/
def linkA6 : Link := { url := "a", text := "GA4 Dashboard" }

def linkB6 : Link := { url := "b", text := "Docker Setup" }

def q6 : String := "How does the GA4 dashboard show bonus marks?"

def a6 : String := "The dashboard shows bonus marks."

/-- Claim C6: the Link Ranker computes exactly the spec scoring (1 point
per question word longer than 3 characters occurring in the lowercased
title, 2 points when the URL or title occurs in the answer), stable-sorts
descending, and drops links with nonpositive scores; on the section 8
example link a scores above link b, and every returned link has a positive
score (so a zero-scored link is dropped). -/
theorem claim_C6_link_ranker (links : List Link) (q a : String) :
    AiAssistantSimple.rank_and_filter_links links q a = specLinkRanker links q a
    ∧ (∀ l ∈ AiAssistantSimple.rank_and_filter_links links q a,
        0 < AiAssistantSimple.rankScore q a l)
    ∧ AiAssistantSimple.rankScore q6 a6 linkA6 = 3
    ∧ AiAssistantSimple.rankScore q6 a6 linkB6 = 2
    ∧ AiAssistantSimple.rank_and_filter_links [linkA6, linkB6] q6 a6 = [linkA6, linkB6] := by
  refine ⟨rank_and_filter_eq_spec links q a, ?_, by decide, by decide, by decide⟩
  intro l hm
  exact (mem_rank_and_filter hm).2

/-- Claim C6 witness: on the section 8 example, link a is returned and its
score is positive. -/
theorem claim_C6_witness :
    linkA6 ∈ AiAssistantSimple.rank_and_filter_links [linkA6, linkB6] q6 a6
    ∧ 0 < AiAssistantSimple.rankScore q6 a6 linkA6 :=
  ⟨by decide, (claim_C6_link_ranker [linkA6, linkB6] q6 a6).2.1 linkA6 (by decide)⟩

/-! ### Claim C10 -/

/-- Claim C10: in the 2-point mention bonus of the Link Ranker, the URL is
compared case-sensitively against the raw answer and the title
case-insensitively against the lowercased answer; hence a link whose URL
occurs in the answer only with differing letter case (and whose title does
not occur) receives no mention bonus: its score is exactly the
title-word score. -/
theorem claim_C10_url_case_sensitivity (q a : String) (l : Link)
    (h0 : pyContains (pyLower a) (pyLower l.url) = true)
    (h1 : pyContains a l.url = false)
    (h2 : pyContains (pyLower a) (pyLower l.text) = false) :
    AiAssistantSimple.rankScore q a l =
      (pySplit (pyLower q)).foldl
        (fun s w => if decide (w.length > 3) && pyContains (pyLower l.text) w then s + 1 else s)
        0 := by
  unfold AiAssistantSimple.rankScore
  simp only [h1, h2, Bool.or_self, Bool.false_eq_true, if_false]

/-- Claim C10 witness: a URL present in the answer only in the wrong case,
with an absent title, earns no mention bonus. -/
theorem claim_C10_witness :
    AiAssistantSimple.rankScore "what" "see docs" { url := "DOCS", text := "zzzz" } =
      (pySplit (pyLower "what")).foldl
        (fun s w => if decide (w.length > 3) && pyContains (pyLower "zzzz") w then s + 1 else s)
        0 :=
  claim_C10_url_case_sensitivity "what" "see docs" { url := "DOCS", text := "zzzz" }
    (by decide) (by decide) (by decide)

/-! ### Claim C4 -/

/-- A vector-store document whose text shares no word with the question
used below. -/
def demoVDoc4 : VDoc :=
  { id := 1, url := "http://example.com/alpha", title := "Alpha", content := "beta",
    content_type := "course", text := "Alpha\nbeta" }

/-- A loaded one-document vector store (the embedding capability is
available). -/
def demoStore4 : VectorStore := { index := some [[1]], documents := [demoVDoc4] }

/-- A concrete embed-and-normalize capability. -/
def demoEmbed4 : String → List ℚ := fun _ => [1]

/-- The same document as a corpus record. -/
def demoDoc4 : ScrapedContent :=
  { id := 1, url := "http://example.com/alpha", title := "Alpha", content := "beta",
    content_type := "course" }

/-- Claim C4 counterexample: with the embedding capability available (a
loaded index), the Vector Search Engine returns a hit with similarity 1
(above the 0.3 threshold, so the vector-based selector would put its link
in the context bundle), yet the served pipeline returns the fixed
nothing-found answer with no links: the vector results were not used, the
keyword engine (which finds nothing here) was. -/
theorem claim_C4_counterexample :
    VectorStore.search demoEmbed4 demoStore4 "xyzzy" 5 = [(demoVDoc4, 1)]
    ∧ ((1 : ℚ) > (0.3 : ℚ))
    ∧ AiAssistant.vecRelevantLinks (VectorStore.search demoEmbed4 demoStore4 "xyzzy" 5) =
        [{ url := "http://example.com/alpha", text := "Alpha" }]
    ∧ handle_question_core demoEmbed4 demoStore4 GenOutcome.noClient
        (Except.ok [demoDoc4]) "xyzzy" none =
      { answer := AiAssistantSimple.nothingFoundAnswer, links := [] } := by
  have hsearch : VectorStore.search demoEmbed4 demoStore4 "xyzzy" 5 = [(demoVDoc4, 1)] := by
    simp [VectorStore.search, demoStore4, demoEmbed4, faissTopK, innerProd, sortDescBy,
      List.insertionSort, List.orderedInsert, List.enum, List.enumFrom, List.filterMap]
  refine ⟨hsearch, by norm_num, ?_, by decide⟩
  rw [hsearch]
  norm_num [AiAssistant.vecRelevantLinks, List.filterMap, demoVDoc4]

/-- Claim C4 amended: the served pipeline (api.py imports answer_question
from ai_assistant_simple) always runs the keyword-based pipeline, and its
output does not depend on the vector store or embedding capability at
all. -/
theorem claim_C4_amended (embedNormA embedNormB : String → List ℚ) (vsA vsB : VectorStore)
    (gen : GenOutcome) (contents : Except String (List ScrapedContent)) (q : String)
    (img : Option String) :
    handle_question_core embedNormA vsA gen contents q img =
        AiAssistantSimple.answer_question gen contents q img
    ∧ handle_question_core embedNormA vsA gen contents q img =
        handle_question_core embedNormB vsB gen contents q img :=
  ⟨rfl, rfl⟩

/-! ### Claim C1 -/

theorem generate_fallback_links (contents : Except String (List ScrapedContent))
    (q : String) (img : Option String) :
    (AiAssistantSimple.generate_fallback_answer contents q img).links.length ≤ 3
    ∧ ∀ l ∈ (AiAssistantSimple.generate_fallback_answer contents q img).links,
        ∃ c ∈ corpusOf contents, l.url = c.url ∧ l.text = c.title ∧
          0 < AiAssistantSimple.simpleScore q c := by
  unfold AiAssistantSimple.generate_fallback_answer
  by_cases he : (AiAssistantSimple.simple_search contents q 3).isEmpty
  · simp [he]
  · simp only [he, Bool.false_eq_true, if_false]
    constructor
    · simp only [List.length_map, List.length_take]
      exact le_trans (min_le_left _ _) (le_refl 3)
    · intro l hm
      simp only [List.mem_map] at hm
      obtain ⟨r, hr, hl⟩ := hm
      have hr2 : r ∈ AiAssistantSimple.simple_search contents q 3 :=
        (List.take_sublist 3 _).subset hr
      obtain ⟨c, hc, he2, hpos⟩ := mem_simple_search hr2
      refine ⟨c, hc, ?_, ?_, hpos⟩
      · rw [← hl, he2]
        rfl
      · rw [← hl, he2]
        rfl

/-- Claim C1: on every path of the answering pipeline (generative success,
fallback for missing client or quota-class failure, and the error path),
the returned answer carries at most 3 links, every returned link originates
from a corpus document with positive keyword relevance, and on the
generative path every returned link additionally has a positive link-ranker
score (zero-relevance links are dropped, never padded). -/
theorem claim_C1_link_invariant (gen : GenOutcome) (contents : Except String (List ScrapedContent))
    (q : String) (img : Option String) :
    (AiAssistantSimple.answer_question gen contents q img).links.length ≤ 3
    ∧ (∀ l ∈ (AiAssistantSimple.answer_question gen contents q img).links,
        ∃ c ∈ corpusOf contents, l.url = c.url ∧ l.text = c.title ∧
          0 < AiAssistantSimple.simpleScore q c)
    ∧ (∀ content, gen = GenOutcome.success content →
        ∀ l ∈ (AiAssistantSimple.answer_question gen contents q img).links,
          0 < AiAssistantSimple.rankScore q (contentOrDefault content) l) := by
  cases gen with
  | noClient =>
    refine ⟨(generate_fallback_links contents q img).1,
            (generate_fallback_links contents q img).2, ?_⟩
    intro content hcon
    exact absurd hcon (by simp)
  | failure msg =>
    by_cases hq : AiAssistantSimple.isQuotaError msg = true
    · have hred : AiAssistantSimple.answer_question (GenOutcome.failure msg) contents q img =
          AiAssistantSimple.generate_fallback_answer contents q img := by
        simp [AiAssistantSimple.answer_question, hq]
      rw [hred]
      refine ⟨(generate_fallback_links contents q img).1,
              (generate_fallback_links contents q img).2, ?_⟩
      intro content hcon
      exact absurd hcon (by simp)
    · have hred : AiAssistantSimple.answer_question (GenOutcome.failure msg) contents q img =
          { answer := AiAssistantSimple.errorAnswerText msg, links := [] } := by
        simp [AiAssistantSimple.answer_question, hq]
      rw [hred]
      refine ⟨by simp, by simp, ?_⟩
      intro content hcon
      exact absurd hcon (by simp)
  | success content =>
    have hred : AiAssistantSimple.answer_question (GenOutcome.success content) contents q img =
        { answer := contentOrDefault content,
          links := (AiAssistantSimple.rank_and_filter_links
              (AiAssistantSimple.simpleRelevantLinks
                (AiAssistantSimple.simple_search contents q 5)) q
              (contentOrDefault content)).take 3 } := rfl
    rw [hred]
    refine ⟨?_, ?_, ?_⟩
    · simp only [List.length_take]
      exact min_le_left _ _
    · intro l hm
      have hm2 := (List.take_sublist 3 _).subset hm
      have hin := (mem_rank_and_filter hm2).1
      obtain ⟨r, hr, hl⟩ := mem_simpleRelevantLinks hin
      obtain ⟨c, hc, he2, hpos⟩ := mem_simple_search hr
      refine ⟨c, hc, ?_, ?_, hpos⟩
      · rw [hl, he2]
        rfl
      · rw [hl, he2]
        rfl
    · intro content2 hcon l hm
      have hc2 : content2 = content := by
        cases hcon
        rfl
      subst hc2
      have hm2 := (List.take_sublist 3 _).subset hm
      exact (mem_rank_and_filter hm2).2

/-- A document matched by the concrete question used in the witness. -/
def demoDoc1 : ScrapedContent :=
  { id := 7, url := "http://g", title := "GA4 dashboard", content := "dashboard help",
    content_type := "course" }

/-- The link derived from that document. -/
def demoLink1 : Link := { url := "http://g", text := "GA4 dashboard" }

/-- Claim C1 witness: a concrete generative-path run returning one link,
whose membership and positive ranker score instantiate the theorem. -/
theorem claim_C1_witness :
    demoLink1 ∈ (AiAssistantSimple.answer_question (GenOutcome.success (some "ga4 dashboard info"))
        (Except.ok [demoDoc1]) "dashboard" none).links
    ∧ (AiAssistantSimple.answer_question (GenOutcome.success (some "ga4 dashboard info"))
        (Except.ok [demoDoc1]) "dashboard" none).links.length ≤ 3
    ∧ 0 < AiAssistantSimple.rankScore "dashboard"
        (contentOrDefault (some "ga4 dashboard info")) demoLink1 :=
  ⟨by decide,
   (claim_C1_link_invariant (GenOutcome.success (some "ga4 dashboard info"))
      (Except.ok [demoDoc1]) "dashboard" none).1,
   (claim_C1_link_invariant (GenOutcome.success (some "ga4 dashboard info"))
      (Except.ok [demoDoc1]) "dashboard" none).2.2 (some "ga4 dashboard info") rfl
     demoLink1 (by decide)⟩

/-! ### Claim C7 -/

/-- Claim C7: the fallback answer is built deterministically as the fixed
header followed, in hit-rank order, by up to 3 labeled excerpts (title plus
the snippet truncated to 200 characters with an appended ellipsis exactly
when it exceeds 200 characters), joined by newlines; with no hits at all
the fixed nothing-found message is returned; and when a (truthy) image was
supplied the fixed image disclaimer is appended as a final line. -/
theorem claim_C7_fallback_composition (contents : Except String (List ScrapedContent))
    (q : String) (img : Option String) (im t : String) :
    (AiAssistantSimple.simple_search contents q 3 = [] →
      AiAssistantSimple.generate_fallback_answer contents q img =
        { answer := AiAssistantSimple.nothingFoundAnswer, links := [] })
    ∧ (t.length ≤ 200 → AiAssistantSimple.truncSnippet t = t)
    ∧ (200 < t.length →
        AiAssistantSimple.truncSnippet t = (⟨t.data.take 200⟩ : String) ++ "...")
    ∧ (AiAssistantSimple.simple_search contents q 3 ≠ [] →
        AiAssistantSimple.generate_fallback_answer contents q none =
          { answer := joinWith "\n" ("Based on the course materials I found:\n" ::
              (((AiAssistantSimple.simple_search contents q 3).take 3).enum.map
                (fun p => AiAssistantSimple.excerptLines (p.1 + 1) p.2)).flatten),
            links := ((AiAssistantSimple.simple_search contents q 3).take 3).map
              (fun r => ({ url := r.url, text := r.title } : Link)) })
    ∧ (AiAssistantSimple.simple_search contents q 3 ≠ [] → im.isEmpty = false →
        (AiAssistantSimple.generate_fallback_answer contents q (some im)).answer =
          (AiAssistantSimple.generate_fallback_answer contents q none).answer ++ "\n" ++
            AiAssistantSimple.imageNote) := by
  refine ⟨?_, ?_, ?_, ?_, ?_⟩
  · intro he
    unfold AiAssistantSimple.generate_fallback_answer
    simp [he]
  · intro ht
    have hlt : ¬ (t.length > 200) := by omega
    unfold AiAssistantSimple.truncSnippet
    rw [if_neg hlt]
  · intro ht
    unfold AiAssistantSimple.truncSnippet
    rw [if_pos ht]
  · intro hne
    have hb : (AiAssistantSimple.simple_search contents q 3).isEmpty = false := by
      cases hE : (AiAssistantSimple.simple_search contents q 3).isEmpty
      · rfl
      · exact absurd (List.isEmpty_iff.mp hE) hne
    unfold AiAssistantSimple.generate_fallback_answer
    simp only [hb, Bool.false_eq_true, if_false, pyTruthy, List.append_nil]
  · intro hne him
    have hb : (AiAssistantSimple.simple_search contents q 3).isEmpty = false := by
      cases hE : (AiAssistantSimple.simple_search contents q 3).isEmpty
      · rfl
      · exact absurd (List.isEmpty_iff.mp hE) hne
    unfold AiAssistantSimple.generate_fallback_answer
    simp only [hb, Bool.false_eq_true, if_false, pyTruthy, him, Bool.not_false, if_true,
      List.append_nil]
    exact joinWith_append_singleton "\n" AiAssistantSimple.imageNote _ _

/-- A 250-character snippet (35 repetitions of a 7-character word plus 5
filler characters). -/
def c7content1 : String :=
  "docker docker docker docker docker docker docker docker docker docker docker docker docker docker docker docker docker docker docker docker docker docker docker docker docker docker docker docker docker docker docker docker docker docker docker 12345"

/-- A 50-character snippet. -/
def c7content2 : String :=
  "podman podman podman podman podman podman podman x"

/-- The first example hit of spec section 8 as a corpus record. -/
def c7doc1 : ScrapedContent :=
  { id := 1, url := "http://docker", title := "Docker Guidelines", content := c7content1,
    content_type := "course" }

/-- The second example hit of spec section 8 as a corpus record. -/
def c7doc2 : ScrapedContent :=
  { id := 2, url := "http://podman", title := "Podman Notes", content := c7content2,
    content_type := "course" }

set_option maxRecDepth 100000 in
/-- Claim C7 witness: on the section 8 example (snippet lengths 250 and
50), the long snippet is truncated to 200 characters plus ellipsis, the
short one is untouched, the composed answer contains both titles and the
untruncated short snippet, and supplying an image appends exactly the fixed
disclaimer line. -/
theorem claim_C7_witness :
    200 < c7content1.length
    ∧ AiAssistantSimple.truncSnippet c7content1 = (⟨c7content1.data.take 200⟩ : String) ++ "..."
    ∧ c7content2.length ≤ 200
    ∧ AiAssistantSimple.truncSnippet c7content2 = c7content2
    ∧ AiAssistantSimple.simple_search (Except.ok [c7doc1, c7doc2]) "docker podman" 3 ≠ []
    ∧ (AiAssistantSimple.generate_fallback_answer (Except.ok [c7doc1, c7doc2])
          "docker podman" (some "img")).answer =
        (AiAssistantSimple.generate_fallback_answer (Except.ok [c7doc1, c7doc2])
          "docker podman" none).answer ++ "\n" ++ AiAssistantSimple.imageNote
    ∧ pyContains (AiAssistantSimple.generate_fallback_answer (Except.ok [c7doc1, c7doc2])
        "docker podman" none).answer "Docker Guidelines" = true
    ∧ pyContains (AiAssistantSimple.generate_fallback_answer (Except.ok [c7doc1, c7doc2])
        "docker podman" none).answer "Podman Notes" = true
    ∧ pyContains (AiAssistantSimple.generate_fallback_answer (Except.ok [c7doc1, c7doc2])
        "docker podman" none).answer c7content2 = true :=
  ⟨by decide,
   (claim_C7_fallback_composition (Except.ok [c7doc1, c7doc2]) "docker podman" none "img"
      c7content1).2.2.1 (by decide),
   by decide,
   (claim_C7_fallback_composition (Except.ok [c7doc1, c7doc2]) "docker podman" none "img"
      c7content2).2.1 (by decide),
   by decide,
   (claim_C7_fallback_composition (Except.ok [c7doc1, c7doc2]) "docker podman" none "img"
      c7content1).2.2.2.2 (by decide) (by decide),
   by decide,
   by decide,
   by decide⟩

/-! ### Claim C8 -/

theorem enum_map_snd_comp {α β : Type} (h : α → β) (l : List α) :
    l.enum.map (fun p => h p.2) = l.map h := by
  rw [show (fun p : Nat × α => h p.2) = h ∘ Prod.snd from rfl, ← List.map_map,
    List.enum_map_snd]

/-- Claim C8: vector search over a missing index or an empty corpus returns
the empty list rather than erroring; over a non-empty corpus with a loaded
index (whose rows parallel the documents) it returns exactly
min(top_k, corpus size) results, each pairing a stored document with the
inner product of the query embedding and the corresponding stored row,
sorted descending by similarity, with any no-match index filtered out. -/
theorem claim_C8_vector_search (embed : String → List ℚ) (q : String) (k : Nat)
    (docs : List VDoc) (rows : List (List ℚ)) (idx : Option (List (List ℚ))) :
    VectorStore.search embed { index := none, documents := docs } q k = []
    ∧ VectorStore.search embed { index := idx, documents := [] } q k = []
    ∧ (rows.length = docs.length → docs ≠ [] →
        (VectorStore.search embed { index := some rows, documents := docs } q k).length =
            min k docs.length
        ∧ (VectorStore.search embed { index := some rows, documents := docs } q k).map
              Prod.snd =
            (sortDescBy id (rows.map (fun v => innerProd (embed q) v))).take
              (min k docs.length)
        ∧ List.Sorted (fun p₁ p₂ : VDoc × ℚ => p₁.2 ≥ p₂.2)
            (VectorStore.search embed { index := some rows, documents := docs } q k)
        ∧ ∀ p ∈ VectorStore.search embed { index := some rows, documents := docs } q k,
            ∃ i v, docs.get? i = some p.1 ∧ rows.get? i = some v ∧
              p.2 = innerProd (embed q) v) := by
  refine ⟨rfl, ?_, ?_⟩
  · cases idx <;> rfl
  · intro hlen hne
    have hb : docs.isEmpty = false := by
      cases hE : docs.isEmpty
      · rfl
      · exact absurd (List.isEmpty_iff.mp hE) hne
    have hnlen : docs.length ≠ 0 := by
      intro h0
      exact hne (List.length_eq_zero.mp h0)
    have hslen : (sortDescBy (fun p : ℚ × Int => p.1)
        (rows.enum.map (fun p => (innerProd (embed q) p.2, (p.1 : Int))))).length =
          docs.length := by
      rw [(sortDescBy_perm _ _).length_eq, List.length_map, List.enum_length, hlen]
    have hmem : ∀ p ∈ sortDescBy (fun p : ℚ × Int => p.1)
        (rows.enum.map (fun p => (innerProd (embed q) p.2, (p.1 : Int)))),
        ∃ i v, i < docs.length ∧ rows.get? i = some v ∧
          p = (innerProd (embed q) v, (i : Int)) := by
      intro p hp
      have hp2 := mem_sortDescBy.mp hp
      rw [List.mem_map] at hp2
      obtain ⟨⟨i, v⟩, hiv, hpe⟩ := hp2
      obtain ⟨hilt, hveq⟩ := List.mem_enum hiv
      refine ⟨i, v, by omega, ?_, hpe.symm⟩
      rw [hveq, List.get?_eq_getElem?, List.getElem?_eq_getElem hilt]
    have hfaiss : faissTopK rows (embed q) (min k docs.length) =
        (sortDescBy (fun p : ℚ × Int => p.1)
          (rows.enum.map (fun p => (innerProd (embed q) p.2, (p.1 : Int))))).take
            (min k docs.length) := by
      unfold faissTopK
      have hks : min k docs.length - rows.length = 0 := by omega
      rw [hks]
      simp
    have hsearch : VectorStore.search embed { index := some rows, documents := docs } q k =
        ((sortDescBy (fun p : ℚ × Int => p.1)
            (rows.enum.map (fun p => (innerProd (embed q) p.2, (p.1 : Int))))).take
          (min k docs.length)).map
            (fun p => ((docs.get? p.2.toNat).getD default, p.1)) := by
      show (if docs.isEmpty then [] else
          (faissTopK rows (embed q) (min k docs.length)).filterMap
            (fun p => if p.2 ≠ -1 then (docs.get? p.2.toNat).map (fun d => (d, p.1))
              else none)) = _
      simp only [hb, Bool.false_eq_true, if_false]
      rw [hfaiss]
      apply filterMap_eq_map_of_forall
      intro p hp
      have hp2 := (List.take_sublist _ _).subset hp
      obtain ⟨i, v, hic, hgi, hpe⟩ := hmem p hp2
      subst hpe
      have hne1 : ((i : Int)) ≠ -1 := by omega
      have hdocs : docs.get? i = some docs[i] := by
        rw [List.get?_eq_getElem?, List.getElem?_eq_getElem hic]
      simp [hne1, hdocs]
      rw [List.getElem?_eq_getElem hic]
      rfl
    refine ⟨?_, ?_, ?_, ?_⟩
    · rw [hsearch, List.length_map, List.length_take, hslen, min_assoc, min_self]
    · rw [hsearch, List.map_map]
      have hcomp : (Prod.snd ∘ (fun p : ℚ × Int => ((docs.get? p.2.toNat).getD default, p.1)))
          = (fun p : ℚ × Int => p.1) := rfl
      rw [hcomp, List.map_take]
      have hmk := map_key_sortDescBy (fun p : ℚ × Int => p.1)
        (rows.enum.map (fun p => (innerProd (embed q) p.2, (p.1 : Int))))
      rw [hmk, List.map_map]
      have hsnd : ((fun p : ℚ × Int => p.1) ∘
          (fun p : Nat × List ℚ => (innerProd (embed q) p.2, (p.1 : Int)))) =
            (fun p : Nat × List ℚ => innerProd (embed q) p.2) := rfl
      rw [hsnd, enum_map_snd_comp (fun v => innerProd (embed q) v) rows]
    · rw [hsearch]
      have hs0 : List.Sorted (fun a b : ℚ × Int => a.1 ≥ b.1)
          ((sortDescBy (fun p : ℚ × Int => p.1)
            (rows.enum.map (fun p => (innerProd (embed q) p.2, (p.1 : Int))))).take
              (min k docs.length)) :=
        List.Pairwise.sublist (List.take_sublist _ _) (sortDescBy_sorted _ _)
      exact (List.pairwise_map).mpr hs0
    · intro p hp
      rw [hsearch, List.mem_map] at hp
      obtain ⟨p0, hp0, hpe⟩ := hp
      have hp1 := (List.take_sublist _ _).subset hp0
      obtain ⟨i, v, hic, hgi, hp0e⟩ := hmem p0 hp1
      subst hp0e
      refine ⟨i, v, ?_, hgi, ?_⟩
      · rw [← hpe]
        simp [List.get?_eq_getElem?, List.getElem?_eq_getElem hic]
      · rw [← hpe]

/-- A first demo vector-store document. -/
def c8doc1 : VDoc :=
  { id := 1, url := "u1", title := "t1", content := "c1", content_type := "ct", text := "x1" }

/-- A second demo vector-store document. -/
def c8doc2 : VDoc :=
  { id := 2, url := "u2", title := "t2", content := "c2", content_type := "ct", text := "x2" }

/-- Claim C8 witness: a concrete two-document store returns min(top_k,
corpus size) results, and a store with no loaded index returns nothing. -/
theorem claim_C8_witness :
    (VectorStore.search (fun _ => [1, 0])
        { index := some [[1, 0], [0, 1]], documents := [c8doc1, c8doc2] } "q" 5).length =
      min 5 2
    ∧ VectorStore.search (fun _ => [1, 0])
        { index := none, documents := [c8doc1, c8doc2] } "q" 5 = [] :=
  ⟨((claim_C8_vector_search (fun _ => [1, 0]) "q" 5 [c8doc1, c8doc2] [[1, 0], [0, 1]]
      none).2.2 (by decide) (by decide)).1,
   (claim_C8_vector_search (fun _ => [1, 0]) "q" 5 [c8doc1, c8doc2] [[1, 0], [0, 1]]
      none).1⟩
